import Mathlib

/-!
# Dummy operator: the reconcile loop of `controllers/dummy_controller.go`

A shallow embedding of `DummyReconciler.Reconcile`, `deploymentForDummy`,
`labelsForDummy` and `imageForDummy`.

* Go strings are Lean `String`s, `map[string]string` literals are association
  lists in the order of the literal, pointers to scalars are `Option`s.
* The cluster object store is a pair of lists (Dummy records, Deployments);
  the embedded `client.Client` reads and writes it directly.  A store call can
  fail for reasons outside the store (network, conflict, server error): the
  `Faults` of a pass say which of its calls fail that way.
* A Go function that can crash returns a `Ret`: a value or a run-time panic.
* Every pass keeps a trace of the steps it performed with their outcomes.
-/

namespace DummyOperator

/-! ## Errors, panics, results -/

/-- Error values that reach `Reconcile`. -/
inductive Err where
  /-- An `apierrors` NotFound status error for the object `kind name/ns`. -/
  | notFound (kind name ns : String)
  /-- An `apierrors` AlreadyExists status error. -/
  | alreadyExists (kind name ns : String)
  /-- Any other failure of a store call (network, conflict, server error). -/
  | storeFailure (msg : String)
  /-- An error made by `fmt.Errorf`. -/
  | errorf (msg : String)
  /-- The scheme has no kind registered for the owner type. -/
  | noKindRegistered (typeName : String)
  /-- The library error `AlreadyOwnedError`: the object `objNamespace/objName`
  has another controller owner already. -/
  | alreadyOwned (objNamespace objName ownerAPIVersion ownerKind ownerName : String)
  deriving DecidableEq, Repr

/-- The predicate `apierrors.IsNotFound`. -/
def IsNotFound : Err → Bool
  | .notFound _ _ _ => true
  | _ => false

/-- Run-time panics of the Go program. -/
inductive Panic where
  /-- A slice index that is not below the length of the slice. -/
  | indexOutOfRange (index length : Nat)
  deriving DecidableEq, Repr

/-- What a call of a Go function that may crash gives: its value or a panic. -/
inductive Ret (α : Type) where
  | val (a : α)
  | panic (p : Panic)
  deriving DecidableEq, Repr

/-- The Go pair `(T, error)`: a value on success, the error otherwise. -/
inductive Res (α : Type) where
  | ok (a : α)
  | error (e : Err)
  deriving DecidableEq, Repr

/-- The constant `time.Minute`, in nanoseconds. -/
def Minute : Nat := 60 * 1000000000

/-- The struct `ctrl.Result`; the zero value is the empty result. -/
structure Result where
  Requeue : Bool := false
  RequeueAfter : Nat := 0
  deriving DecidableEq, Repr

/-! ## The data model -/

/-- The struct `types.NamespacedName`. -/
structure NamespacedName where
  Name : String
  Namespace : String
  deriving DecidableEq, Repr

/-- The struct `ctrl.Request`. -/
structure Request where
  NamespacedName : NamespacedName
  deriving DecidableEq, Repr

/-- The struct `metav1.Condition`. -/
structure Condition where
  Type_ : String
  Status : String
  ObservedGeneration : Int := 0
  LastTransitionTime : Nat := 0
  Reason : String
  Message : String
  deriving DecidableEq, Repr

/-- Modelled from the spec: the type `DummySpec` of `api/v1alpha1`, whose
declaration is not among the sources; the controller reads `Message`, the test
sets `Size`. -/
structure DummySpec where
  Message : String := ""
  Size : Int := 0
  deriving DecidableEq, Repr

/-- Modelled from the spec: the type `DummyStatus` of `api/v1alpha1`, whose
declaration is not among the sources; the controller writes `PodStatus` and
`EchoSpec`, the test reads `Conditions`. -/
structure DummyStatus where
  PodStatus : String := ""
  EchoSpec : String := ""
  Conditions : List Condition := []
  deriving DecidableEq, Repr

/-- Modelled from the spec: the type `Dummy` of `api/v1alpha1`, whose
declaration is not among the sources: object metadata (name, namespace, UID),
the spec and the status sub-record. -/
structure Dummy where
  Name : String
  Namespace : String
  UID : String := ""
  Spec : DummySpec := {}
  Status : DummyStatus := {}
  deriving DecidableEq, Repr

/-- The struct `metav1.OwnerReference`. -/
structure OwnerReference where
  APIVersion : String
  Kind : String
  Name : String
  UID : String
  Controller : Option Bool
  BlockOwnerDeletion : Option Bool
  deriving DecidableEq, Repr

/-- The fields of `metav1.ObjectMeta` that the controller sets. -/
structure ObjectMeta where
  Name : String := ""
  Namespace : String := ""
  Labels : List (String × String) := []
  OwnerReferences : List OwnerReference := []
  deriving DecidableEq, Repr

/-- The struct `corev1.SeccompProfile`. -/
structure SeccompProfile where
  Type_ : String
  deriving DecidableEq, Repr

/-- The struct `corev1.PodSecurityContext`. -/
structure PodSecurityContext where
  RunAsNonRoot : Option Bool := none
  SeccompProfile : Option SeccompProfile := none
  deriving DecidableEq, Repr

/-- The struct `corev1.Capabilities`. -/
structure Capabilities where
  Drop : List String := []
  deriving DecidableEq, Repr

/-- The struct `corev1.SecurityContext` of a container. -/
structure SecurityContext where
  RunAsNonRoot : Option Bool := none
  RunAsUser : Option Int := none
  AllowPrivilegeEscalation : Option Bool := none
  Capabilities : Option Capabilities := none
  deriving DecidableEq, Repr

/-- The struct `corev1.Container`. -/
structure Container where
  Image : String
  Name : String
  ImagePullPolicy : String
  SecurityContext : Option SecurityContext := none
  deriving DecidableEq, Repr

/-- The struct `corev1.PodSpec`. -/
structure PodSpec where
  SecurityContext : Option PodSecurityContext := none
  Containers : List Container := []
  deriving DecidableEq, Repr

/-- The struct `corev1.PodTemplateSpec`. -/
structure PodTemplateSpec where
  ObjectMeta : ObjectMeta := {}
  Spec : PodSpec := {}
  deriving DecidableEq, Repr

/-- The struct `metav1.LabelSelector`. -/
structure LabelSelector where
  MatchLabels : List (String × String) := []
  deriving DecidableEq, Repr

/-- The struct `appsv1.DeploymentSpec`. -/
structure DeploymentSpec where
  Replicas : Option Int := none
  Selector : Option LabelSelector := none
  Template : PodTemplateSpec := {}
  deriving DecidableEq, Repr

/-- The struct `appsv1.Deployment`. -/
structure Deployment where
  ObjectMeta : ObjectMeta := {}
  Spec : DeploymentSpec := {}
  deriving DecidableEq, Repr

/-- The cluster object store: the Dummy records and the Deployments. -/
structure Cluster where
  dummies : List Dummy := []
  deployments : List Deployment := []
  deriving DecidableEq, Repr

/-! ## Constants of the controller -/

/-- The constant `dummyFinalizer`; the controller never uses it. -/
def dummyFinalizer : String := "interview.com/finalizer"

/-- The constant `statusRunning`. -/
def statusRunning : String := "Running"

/-- The constant `statusPending`. -/
def statusPending : String := "Pending"

/-- The constant `corev1.SeccompProfileTypeRuntimeDefault`. -/
def SeccompProfileTypeRuntimeDefault : String := "RuntimeDefault"

/-- The constant `corev1.PullIfNotPresent`. -/
def PullIfNotPresent : String := "IfNotPresent"

/-! ## The environment and the image -/

/-- The process environment, as `os.LookupEnv` sees it. -/
abbrev Env := String → Option String

/-- The function `imageForDummy`: the Operand image from `DUMMY_IMAGE`. -/
def imageForDummy (env : Env) : Res String :=
  let imageEnvVar := "DUMMY_IMAGE"
  match env imageEnvVar with
  | none => .error (.errorf ("Unable to find " ++ imageEnvVar ++ " environment variable with the image"))
  | some image => .ok image

/-- Splitting a list of characters at every occurrence of `sep`. -/
def splitChars (sep : Char) : List Char → List (List Char)
  | [] => [[]]
  | c :: cs =>
    if c = sep then [] :: splitChars sep cs
    else
      match splitChars sep cs with
      | [] => [[c]]
      | w :: ws => (c :: w) :: ws

/-- The call `strings.Split(s, sep)` for a separator of one character. -/
def stringsSplit (s : String) (sep : Char) : List String :=
  (splitChars sep s.data).map String.mk

/-- The function `labelsForDummy`; indexing the split image at `[1]` panics
when the slice has a single element. -/
def labelsForDummy (env : Env) (name : String) : Ret (List (String × String)) :=
  let labels := fun (imageTag : String) =>
    [("app.kubernetes.io/name", "Dummy"),
     ("app.kubernetes.io/instance", name),
     ("app.kubernetes.io/version", imageTag),
     ("app.kubernetes.io/part-of", "custom-kubernetes-operator"),
     ("app.kubernetes.io/created-by", "controller-manager")]
  match imageForDummy env with
  | .ok image =>
    let parts := stringsSplit image ':'
    match parts.get? 1 with
    | some imageTag => .val (labels imageTag)
    | none => .panic (.indexOutOfRange 1 parts.length)
  | .error _ => .val (labels "")

/-! ## Owner references -/

/-- A group, version and kind, as a scheme records it for a Go type. -/
structure GroupVersionKind where
  Group : String
  Version : String
  Kind : String
  deriving DecidableEq, Repr

/-- The part of `runtime.Scheme` the controller uses: the kind registered for
the Go type `Dummy`, if any. -/
structure Scheme where
  dummyKind : Option GroupVersionKind
  deriving DecidableEq, Repr

/-- The method `GroupVersion().String()` of a kind. -/
def GroupVersionKind.apiVersion (gvk : GroupVersionKind) : String :=
  if gvk.Group = "" then gvk.Version else gvk.Group ++ "/" ++ gvk.Version

/-- The library function `schema.ParseGroupVersion`, keeping the group: a
string with no slash is a bare version, one slash separates group and version,
more slashes are an error. -/
def parseGroup (apiVersion : String) : Option String :=
  match stringsSplit apiVersion '/' with
  | [_] => some ""
  | [g, _] => some g
  | _ => none

/-- The library function `referSameObject` on owner references. -/
def referSameObject (a b : OwnerReference) : Bool :=
  match parseGroup a.APIVersion, parseGroup b.APIVersion with
  | some ga, some gb => decide (ga = gb ∧ a.Kind = b.Kind ∧ a.Name = b.Name)
  | _, _ => false

/-- The library function `upsertOwnerRef`: the reference replaces the first
one that refers to the same object, or is appended. -/
def upsertOwnerRef (ref : OwnerReference) : List OwnerReference → List OwnerReference
  | [] => [ref]
  | a :: rest => if referSameObject a ref then ref :: rest else a :: upsertOwnerRef ref rest

/-- The library function `controllerutil.SetControllerReference` with a Dummy
as owner and a Deployment as the controlled object. -/
def SetControllerReference (owner : Dummy) (dep : Deployment) (scheme : Scheme) : Res Deployment :=
  -- validateOwner
  if owner.Namespace ≠ "" ∧ dep.ObjectMeta.Namespace = "" then
    .error (.errorf ("cluster-scoped resource must not have a namespace-scoped owner, " ++
      "owner's namespace " ++ owner.Namespace))
  else if owner.Namespace ≠ "" ∧ owner.Namespace ≠ dep.ObjectMeta.Namespace then
    .error (.errorf ("cross-namespace owner references are disallowed, owner's namespace " ++
      owner.Namespace ++ ", obj's namespace " ++ dep.ObjectMeta.Namespace))
  else
    match scheme.dummyKind with
    | none => .error (.noKindRegistered "v1alpha1.Dummy")
    | some gvk =>
      let ref : OwnerReference :=
        { APIVersion := gvk.apiVersion, Kind := gvk.Kind, Name := owner.Name, UID := owner.UID,
          BlockOwnerDeletion := some true, Controller := some true }
      match dep.ObjectMeta.OwnerReferences.find? (fun a => a.Controller = some true) with
      | some existing =>
        if referSameObject existing ref then
          .ok { dep with ObjectMeta.OwnerReferences := upsertOwnerRef ref dep.ObjectMeta.OwnerReferences }
        else .error (.alreadyOwned dep.ObjectMeta.Namespace dep.ObjectMeta.Name
          existing.APIVersion existing.Kind existing.Name)
      | none =>
        .ok { dep with ObjectMeta.OwnerReferences := upsertOwnerRef ref dep.ObjectMeta.OwnerReferences }

/-! ## The reconciler -/

/-- Which store calls of one pass fail for a reason outside the store, and with
what message. -/
structure Faults where
  getDummy : Option String := none
  getDeployment : Option String := none
  create : Option String := none
  statusUpdate : Option String := none
  deriving DecidableEq, Repr

/-- The struct `DummyReconciler`: the embedded client and the scheme. -/
structure DummyReconciler where
  Client : Faults := {}
  Scheme : Scheme
  deriving DecidableEq, Repr

/-- The function `deploymentForDummy`. -/
def DummyReconciler.deploymentForDummy (r : DummyReconciler) (env : Env) (dummy : Dummy) :
    Ret (Res Deployment) :=
  match labelsForDummy env dummy.Name with
  | .panic p => .panic p
  | .val ls =>
    let replicas : Int := 1
    match imageForDummy env with
    | .error err => .val (.error err)
    | .ok image =>
      let dep : Deployment :=
        { ObjectMeta := { Name := dummy.Name, Namespace := dummy.Namespace },
          Spec :=
            { Replicas := some replicas,
              Selector := some { MatchLabels := ls },
              Template :=
                { ObjectMeta := { Labels := ls },
                  Spec :=
                    { SecurityContext := some
                        { RunAsNonRoot := some true,
                          SeccompProfile := some { Type_ := SeccompProfileTypeRuntimeDefault } },
                      Containers :=
                        [{ Image := image,
                           Name := "dummy",
                           ImagePullPolicy := PullIfNotPresent,
                           SecurityContext := some
                             { RunAsNonRoot := some true,
                               RunAsUser := some 1001,
                               AllowPrivilegeEscalation := some false,
                               Capabilities := some { Drop := ["ALL"] } } }] } } } }
      match SetControllerReference dummy dep r.Scheme with
      | .error err => .val (.error err)
      | .ok dep => .val (.ok dep)

/-! ## The store and the client -/

/-- Whether a Dummy record has the identity `key`. -/
def Dummy.hasKey (key : NamespacedName) (d : Dummy) : Bool :=
  decide (d.Name = key.Name ∧ d.Namespace = key.Namespace)

/-- Whether a Deployment has the identity `key`. -/
def Deployment.hasKey (key : NamespacedName) (d : Deployment) : Bool :=
  decide (d.ObjectMeta.Name = key.Name ∧ d.ObjectMeta.Namespace = key.Namespace)

/-- The Dummy record stored at `key`, if any. -/
def Cluster.dummyAt (c : Cluster) (key : NamespacedName) : Option Dummy :=
  c.dummies.find? (Dummy.hasKey key)

/-- The Deployment stored at `key`, if any. -/
def Cluster.deploymentAt (c : Cluster) (key : NamespacedName) : Option Deployment :=
  c.deployments.find? (Deployment.hasKey key)

/-- The steps of a pass. -/
inductive Step where
  | getDummy
  | getDeployment
  | deploymentForDummy
  | create
  | statusUpdate
  deriving DecidableEq, Repr

/-- How a step ended. -/
inductive StepOutcome where
  | ok
  | failed (e : Err)
  | panicked (p : Panic)
  deriving DecidableEq, Repr

/-- One entry of the trace of a pass. -/
structure Event where
  step : Step
  outcome : StepOutcome
  deriving DecidableEq, Repr

/-- The store together with the trace of the steps performed so far. -/
structure World where
  cluster : Cluster
  trace : List Event := []
  deriving DecidableEq, Repr

/-- Appending an entry to the trace. -/
def World.record (w : World) (step : Step) (outcome : StepOutcome) : World :=
  { w with trace := w.trace ++ [⟨step, outcome⟩] }

/-- The outcome of a `(T, error)` pair. -/
def Res.outcome {α : Type} : Res α → StepOutcome
  | .ok _ => .ok
  | .error e => .failed e

/-- The call `r.Get(ctx, key, dummy)`. -/
def DummyReconciler.GetDummy (r : DummyReconciler) (key : NamespacedName) (w : World) :
    World × Res Dummy :=
  let res : Res Dummy :=
    match r.Client.getDummy with
    | some msg => .error (.storeFailure msg)
    | none =>
      match w.cluster.dummyAt key with
      | some d => .ok d
      | none => .error (.notFound "Dummy" key.Name key.Namespace)
  (w.record .getDummy res.outcome, res)

/-- The call `r.Get(ctx, key, found)` for a Deployment. -/
def DummyReconciler.GetDeployment (r : DummyReconciler) (key : NamespacedName) (w : World) :
    World × Res Deployment :=
  let res : Res Deployment :=
    match r.Client.getDeployment with
    | some msg => .error (.storeFailure msg)
    | none =>
      match w.cluster.deploymentAt key with
      | some d => .ok d
      | none => .error (.notFound "Deployment" key.Name key.Namespace)
  (w.record .getDeployment res.outcome, res)

/-- The call `r.Create(ctx, dep)`. -/
def DummyReconciler.Create (r : DummyReconciler) (dep : Deployment) (w : World) :
    World × Option Err :=
  match r.Client.create with
  | some msg => (w.record .create (.failed (.storeFailure msg)), some (.storeFailure msg))
  | none =>
    match w.cluster.deploymentAt ⟨dep.ObjectMeta.Name, dep.ObjectMeta.Namespace⟩ with
    | some _ =>
      let err := Err.alreadyExists "Deployment" dep.ObjectMeta.Name dep.ObjectMeta.Namespace
      (w.record .create (.failed err), some err)
    | none =>
      ({ w with cluster := { w.cluster with deployments := w.cluster.deployments ++ [dep] } }.record
        .create .ok, none)

/-- Writing the status sub-record of `dummy` to the records of its identity;
the spec and the metadata of the stored records stay. -/
def Cluster.writeStatus (c : Cluster) (dummy : Dummy) : Cluster :=
  { c with dummies := c.dummies.map (fun d =>
      if d.hasKey ⟨dummy.Name, dummy.Namespace⟩ then { d with Status := dummy.Status } else d) }

/-- The call `r.Status().Update(ctx, dummy)`. -/
def DummyReconciler.StatusUpdate (r : DummyReconciler) (dummy : Dummy) (w : World) :
    World × Option Err :=
  match r.Client.statusUpdate with
  | some msg => (w.record .statusUpdate (.failed (.storeFailure msg)), some (.storeFailure msg))
  | none =>
    match w.cluster.dummyAt ⟨dummy.Name, dummy.Namespace⟩ with
    | none =>
      let err := Err.notFound "Dummy" dummy.Name dummy.Namespace
      (w.record .statusUpdate (.failed err), some err)
    | some _ =>
      ({ w with cluster := w.cluster.writeStatus dummy }.record .statusUpdate .ok, none)

/-- The outcome of `deploymentForDummy` as a trace entry. -/
def buildOutcome : Ret (Res Deployment) → StepOutcome
  | .val res => res.outcome
  | .panic p => .panicked p

/-- The method `Reconcile`: the world after the pass and what the call gave,
the pair `(ctrl.Result, error)` or a panic. -/
def DummyReconciler.Reconcile (r : DummyReconciler) (env : Env) (req : Request) (w : World) :
    World × Ret (Result × Option Err) :=
  -- Fetch the Dummy instance
  match r.GetDummy req.NamespacedName w with
  | (w, .error err) =>
    if IsNotFound err then (w, .val ({}, none))
    else (w, .val ({}, some err))
  | (w, .ok dummy) =>
    -- Check if the deployment already exists, if not create a new one
    match r.GetDeployment ⟨dummy.Name, dummy.Namespace⟩ w with
    | (w, .error err) =>
      if IsNotFound err then
        -- Define a new deployment
        let built := r.deploymentForDummy env dummy
        let w := w.record .deploymentForDummy (buildOutcome built)
        match built with
        | .panic p => (w, .panic p)
        | .val (.error err) => (w, .val ({}, some err))
        | .val (.ok dep) =>
          match r.Create dep w with
          | (w, some err) => (w, .val ({}, some err))
          | (w, none) =>
            -- Set podStatus as running when deployment is successfully created
            let dummy := { dummy with Status.PodStatus := statusRunning }
            match r.StatusUpdate dummy w with
            | (w, some err) => (w, .val ({}, some err))
            | (w, none) => (w, .val ({ RequeueAfter := Minute }, none))
      else (w, .val ({}, some err))
    | (w, .ok _) =>
      -- Set the default dummy podStatus as pending
      let dummy :=
        if dummy.Status.PodStatus = "" then { dummy with Status.PodStatus := statusPending }
        else dummy
      -- Propagate spec.message to status.echoSpec
      let dummy := { dummy with Status.EchoSpec := dummy.Spec.Message }
      match r.StatusUpdate dummy w with
      | (w, some err) => (w, .val ({}, some err))
      | (w, none) => (w, .val ({}, none))

/-- One pass on a store, with an empty trace at the start. -/
def DummyReconciler.run (r : DummyReconciler) (env : Env) (req : Request) (c : Cluster) :
    World × Ret (Result × Option Err) :=
  r.Reconcile env req { cluster := c }

/-- The store after one pass. -/
def DummyReconciler.after (r : DummyReconciler) (env : Env) (req : Request) (c : Cluster) :
    Cluster :=
  (r.run env req c).1.cluster

/-- The states reachable for the identity of `req`: an initial state has the
record stored with an empty status and no Deployment at its identity; a pass of
any reconciler (any of its store calls may fail) in any environment leads from a
reachable state to a reachable state. -/
inductive Reachable (req : Request) : Cluster → Prop where
  | init {c : Cluster} {d : Dummy} (hd : c.dummyAt req.NamespacedName = some d)
      (hs : d.Status = {}) (hp : c.deploymentAt req.NamespacedName = none) : Reachable req c
  | pass {c : Cluster} (r : DummyReconciler) (env : Env) (h : Reachable req c) :
      Reachable req (r.after env req c)

/-! ## Definitions used by the statements -/

/-- The controller owner reference that `SetControllerReference` makes. -/
def controllerRef (gvk : GroupVersionKind) (owner : Dummy) : OwnerReference :=
  { APIVersion := gvk.apiVersion, Kind := gvk.Kind, Name := owner.Name, UID := owner.UID,
    BlockOwnerDeletion := some true, Controller := some true }

/-- The trace up to the lookup of the Deployment, when it is absent. -/
def absentTrace (d : Dummy) : List Event :=
  [⟨.getDummy, .ok⟩, ⟨.getDeployment, .failed (.notFound "Deployment" d.Name d.Namespace)⟩]

/-- The status that the branch with the Deployment present writes. -/
def steadyStatus (d : Dummy) : DummyStatus :=
  { PodStatus := if d.Status.PodStatus = "" then statusPending else d.Status.PodStatus,
    EchoSpec := d.Spec.Message,
    Conditions := d.Status.Conditions }

/-- The status that the creating branch writes. -/
def createdStatus (d : Dummy) : DummyStatus :=
  { d.Status with PodStatus := statusRunning }

/-- The error of a failing step, as the error policy counts it: a fetch that
reports NotFound is not a failure, every other error of a step is. -/
def Event.failure (ev : Event) : Option Err :=
  match ev.step, ev.outcome with
  | .getDummy, .failed e => if IsNotFound e then none else some e
  | .getDeployment, .failed e => if IsNotFound e then none else some e
  | _, .failed e => some e
  | _, _ => none

/-- Whether a step writes to the store. -/
def Step.isWrite : Step → Bool
  | .create => true
  | .statusUpdate => true
  | _ => false

/-- The error that `imageForDummy` makes when `DUMMY_IMAGE` is not set. -/
def missingImageErr : Err :=
  .errorf "Unable to find DUMMY_IMAGE environment variable with the image"

/-! ## Concrete data of the test -/

/-- The environment of the test: `DUMMY_IMAGE` is `example.com/image:test`. -/
def testEnv : Env := fun k => if k = "DUMMY_IMAGE" then some "example.com/image:test" else none

/-- An environment whose image has no tag. -/
def untaggedEnv : Env := fun k => if k = "DUMMY_IMAGE" then some "nginx" else none

/-- An environment without `DUMMY_IMAGE`. -/
def emptyEnv : Env := fun _ => none

/-- The scheme of the manager, with the Dummy kind registered. -/
def testScheme : Scheme := { dummyKind := some ⟨"interview.com", "v1alpha1", "Dummy"⟩ }

/-- The record of the test. -/
def testDummy : Dummy := { Name := "test-dummy", Namespace := "test-dummy", Spec := { Size := 1 } }

/-- The request of the test. -/
def testReq : Request := ⟨⟨"test-dummy", "test-dummy"⟩⟩

/-- The store of the test before the pass. -/
def testCluster : Cluster := { dummies := [testDummy] }

/-- The record of the test with a message in its spec. -/
def helloDummy : Dummy :=
  { Name := "test-dummy", Namespace := "test-dummy", Spec := { Message := "hello", Size := 1 } }

/-- A store with the record that has a message, and no Deployment. -/
def helloCluster : Cluster := { dummies := [helloDummy] }

/-- The reconciler of the test, all of whose store calls go through. -/
def testReconciler : DummyReconciler := { Scheme := testScheme }

/-- A reconciler whose status update fails with a conflict. -/
def lostWriteReconciler : DummyReconciler :=
  { Client := { statusUpdate := some "conflict" }, Scheme := testScheme }

/-- A store in which the record of the test has a Deployment already and an
empty status. -/
def presentCluster : Cluster :=
  { dummies := [testDummy],
    deployments := [{ ObjectMeta := { Name := "test-dummy", Namespace := "test-dummy" } }] }

/-! ## Lemmas on the store -/

theorem dummyAt_key {c : Cluster} {key : NamespacedName} {d : Dummy}
    (h : c.dummyAt key = some d) : (⟨d.Name, d.Namespace⟩ : NamespacedName) = key := by
  have hk := List.find?_some h
  simp only [Dummy.hasKey, decide_eq_true_eq] at hk
  cases key
  simp_all

theorem deploymentAt_key {c : Cluster} {key : NamespacedName} {d : Deployment}
    (h : c.deploymentAt key = some d) :
    (⟨d.ObjectMeta.Name, d.ObjectMeta.Namespace⟩ : NamespacedName) = key := by
  have hk := List.find?_some h
  simp only [Deployment.hasKey, decide_eq_true_eq] at hk
  cases key
  simp_all

theorem find_writeStatus (key : NamespacedName) (s : DummyStatus) (l : List Dummy) :
    (l.map (fun d => if d.hasKey key then { d with Status := s } else d)).find? (Dummy.hasKey key)
      = (l.find? (Dummy.hasKey key)).map (fun d => { d with Status := s }) := by
  induction l with
  | nil => rfl
  | cons a l ih =>
    by_cases ha : a.hasKey key = true
    · simp [List.find?, ha, Dummy.hasKey] at *
      simp [ha]
    · simp only [Bool.not_eq_true] at ha
      simp [List.find?, ha, ih]

theorem dummyAt_writeStatus {c : Cluster} {key : NamespacedName} {d : Dummy} (x : Dummy)
    (hx : (⟨x.Name, x.Namespace⟩ : NamespacedName) = key) (h : c.dummyAt key = some d) :
    (c.writeStatus x).dummyAt key = some { d with Status := x.Status } := by
  unfold Cluster.dummyAt Cluster.writeStatus at *
  simp only [hx, find_writeStatus, h, Option.map_some']

theorem dummyAt_writeStatus_self {c : Cluster} {key : NamespacedName} {d : Dummy}
    (s : DummyStatus) (h : c.dummyAt key = some d) :
    (c.writeStatus { d with Status := s }).dummyAt key = some { d with Status := s } := by
  have hk : (⟨d.Name, d.Namespace⟩ : NamespacedName) = key := dummyAt_key h
  exact dummyAt_writeStatus { d with Status := s } hk h

theorem deployments_writeStatus (c : Cluster) (x : Dummy) :
    (c.writeStatus x).deployments = c.deployments := rfl

/-! ## Lemmas on the builder -/

theorem setControllerReference_fresh (owner : Dummy) (dep : Deployment) (scheme : Scheme)
    (hns : dep.ObjectMeta.Namespace = owner.Namespace) (hno : dep.ObjectMeta.OwnerReferences = []) :
    SetControllerReference owner dep scheme =
      match scheme.dummyKind with
      | none => .error (.noKindRegistered "v1alpha1.Dummy")
      | some gvk => .ok { dep with ObjectMeta.OwnerReferences := [controllerRef gvk owner] } := by
  unfold SetControllerReference
  have h1 : ¬ (owner.Namespace ≠ "" ∧ dep.ObjectMeta.Namespace = "") := by
    rw [hns]; tauto
  have h2 : ¬ (owner.Namespace ≠ "" ∧ owner.Namespace ≠ dep.ObjectMeta.Namespace) := by
    rw [hns]; tauto
  rw [if_neg h1, if_neg h2]
  cases scheme.dummyKind with
  | none => rfl
  | some gvk => simp [hno, upsertOwnerRef, controllerRef]

/-- What a Deployment returned by `deploymentForDummy` looks like. -/
theorem deploymentForDummy_ok {r : DummyReconciler} {env : Env} {d : Dummy} {dep : Deployment}
    (h : r.deploymentForDummy env d = .val (.ok dep)) :
    ∃ image gvk ls, env "DUMMY_IMAGE" = some image ∧ r.Scheme.dummyKind = some gvk ∧
      labelsForDummy env d.Name = .val ls ∧
      dep.ObjectMeta = { Name := d.Name, Namespace := d.Namespace,
                         OwnerReferences := [controllerRef gvk d] } ∧
      dep.Spec.Replicas = some 1 ∧
      dep.Spec.Selector = some { MatchLabels := ls } ∧
      dep.Spec.Template.ObjectMeta = { Labels := ls } ∧
      dep.Spec.Template.Spec.SecurityContext = some
        { RunAsNonRoot := some true,
          SeccompProfile := some { Type_ := SeccompProfileTypeRuntimeDefault } } ∧
      dep.Spec.Template.Spec.Containers =
        [{ Image := image, Name := "dummy", ImagePullPolicy := PullIfNotPresent,
           SecurityContext := some
             { RunAsNonRoot := some true, RunAsUser := some 1001,
               AllowPrivilegeEscalation := some false,
               Capabilities := some { Drop := ["ALL"] } } }] := by
  unfold DummyReconciler.deploymentForDummy at h
  cases hl : labelsForDummy env d.Name with
  | panic p => simp [hl] at h
  | val ls =>
    cases hi : env "DUMMY_IMAGE" with
    | none => simp [hl, imageForDummy, hi] at h
    | some image =>
      simp only [hl, imageForDummy, hi] at h
      rw [setControllerReference_fresh _ _ _ rfl rfl] at h
      cases hk : r.Scheme.dummyKind with
      | none => simp [hk] at h
      | some gvk =>
        simp only [hk, Ret.val.injEq, Res.ok.injEq] at h
        subst h
        exact ⟨image, gvk, ls, rfl, rfl, rfl, rfl, rfl, rfl, rfl, rfl, rfl⟩

theorem deploymentForDummy_key {r : DummyReconciler} {env : Env} {d : Dummy} {dep : Deployment}
    (h : r.deploymentForDummy env d = .val (.ok dep)) :
    dep.ObjectMeta.Name = d.Name ∧ dep.ObjectMeta.Namespace = d.Namespace := by
  obtain ⟨_, _, _, _, _, _, hm, _⟩ := deploymentForDummy_ok h
  simp [hm]

theorem splitChars_length (sep : Char) (l : List Char) :
    (splitChars sep l).length = l.count sep + 1 := by
  induction l with
  | nil => rfl
  | cons c cs ih =>
    by_cases hc : c = sep
    · subst hc
      simp [splitChars, ih]
    · have hne : ¬ (c == sep) = true := by simpa using hc
      cases hs : splitChars sep cs with
      | nil => simp [hs] at ih
      | cons w ws =>
        simp only [splitChars, if_neg hc, hs, List.length_cons, List.count_cons, hne, if_false]
        simpa [hs] using ih

/-- Indexing the split image at `[1]` is in range exactly when the image has a
colon. -/
theorem stringsSplit_get_one (image : String) :
    (stringsSplit image ':').get? 1 = none ↔ ':' ∉ image.data := by
  rw [List.get?_eq_none]
  simp only [stringsSplit, List.length_map, splitChars_length]
  rw [← List.count_eq_zero]
  omega

theorem stringsSplit_length_untagged {image : String} (h : ':' ∉ image.data) :
    (stringsSplit image ':').length = 1 := by
  simp only [stringsSplit, List.length_map, splitChars_length, List.count_eq_zero.mpr h]

/-- The builder crashes on every image without a colon. -/
theorem deploymentForDummy_untagged (r : DummyReconciler) {env : Env} (d : Dummy)
    {image : String} (henv : env "DUMMY_IMAGE" = some image) (h : ':' ∉ image.data) :
    r.deploymentForDummy env d = .panic (.indexOutOfRange 1 1) := by
  have hg := (stringsSplit_get_one image).mpr h
  simp only [DummyReconciler.deploymentForDummy, labelsForDummy, imageForDummy, henv, hg,
    stringsSplit_length_untagged h]

/-- The builder returns a Deployment for every image with a colon, when the
scheme knows the Dummy kind. -/
theorem deploymentForDummy_tagged (r : DummyReconciler) {env : Env} (d : Dummy)
    {image : String} {gvk : GroupVersionKind} (henv : env "DUMMY_IMAGE" = some image)
    (h : ':' ∈ image.data) (hk : r.Scheme.dummyKind = some gvk) :
    ∃ dep, r.deploymentForDummy env d = .val (.ok dep) := by
  cases hg : (stringsSplit image ':').get? 1 with
  | none => exact absurd h ((stringsSplit_get_one image).mp hg)
  | some tag =>
    simp only [DummyReconciler.deploymentForDummy, labelsForDummy, imageForDummy, henv, hg]
    rw [setControllerReference_fresh _ _ _ rfl rfl]
    simp [hk]

/-! ## The paths of one pass -/

theorem run_getDummy_fault (r : DummyReconciler) (env : Env) (req : Request) (c : Cluster)
    {msg : String} (h : r.Client.getDummy = some msg) :
    r.run env req c =
      (⟨c, [⟨.getDummy, .failed (.storeFailure msg)⟩]⟩, .val ({}, some (.storeFailure msg))) := by
  simp [DummyReconciler.run, DummyReconciler.Reconcile, DummyReconciler.GetDummy, h,
    World.record, Res.outcome, IsNotFound]

theorem run_missing (r : DummyReconciler) (env : Env) (req : Request) (c : Cluster)
    (h : r.Client.getDummy = none) (hd : c.dummyAt req.NamespacedName = none) :
    r.run env req c =
      (⟨c, [⟨.getDummy, .failed (.notFound "Dummy" req.NamespacedName.Name
        req.NamespacedName.Namespace)⟩]⟩, .val ({}, none)) := by
  simp [DummyReconciler.run, DummyReconciler.Reconcile, DummyReconciler.GetDummy, h, hd,
    World.record, Res.outcome, IsNotFound]

theorem run_getDeployment_fault (r : DummyReconciler) (env : Env) (req : Request) (c : Cluster)
    {d : Dummy} {msg : String} (h : r.Client.getDummy = none)
    (hd : c.dummyAt req.NamespacedName = some d) (hg : r.Client.getDeployment = some msg) :
    r.run env req c =
      (⟨c, [⟨.getDummy, .ok⟩, ⟨.getDeployment, .failed (.storeFailure msg)⟩]⟩,
        .val ({}, some (.storeFailure msg))) := by
  simp [DummyReconciler.run, DummyReconciler.Reconcile, DummyReconciler.GetDummy,
    DummyReconciler.GetDeployment, h, hd, hg, World.record, Res.outcome, IsNotFound]

theorem run_build_panic (r : DummyReconciler) (env : Env) (req : Request) (c : Cluster)
    {d : Dummy} {p : Panic} (h : r.Client.getDummy = none)
    (hd : c.dummyAt req.NamespacedName = some d) (hg : r.Client.getDeployment = none)
    (hp : c.deploymentAt req.NamespacedName = none)
    (hb : r.deploymentForDummy env d = .panic p) :
    r.run env req c =
      (⟨c, absentTrace d ++ [⟨.deploymentForDummy, .panicked p⟩]⟩, .panic p) := by
  have hk := dummyAt_key hd
  simp [DummyReconciler.run, DummyReconciler.Reconcile, DummyReconciler.GetDummy,
    DummyReconciler.GetDeployment, h, hd, hg, hk, hp, hb, World.record, Res.outcome, IsNotFound,
    buildOutcome, absentTrace]

theorem run_build_error (r : DummyReconciler) (env : Env) (req : Request) (c : Cluster)
    {d : Dummy} {e : Err} (h : r.Client.getDummy = none)
    (hd : c.dummyAt req.NamespacedName = some d) (hg : r.Client.getDeployment = none)
    (hp : c.deploymentAt req.NamespacedName = none)
    (hb : r.deploymentForDummy env d = .val (.error e)) :
    r.run env req c =
      (⟨c, absentTrace d ++ [⟨.deploymentForDummy, .failed e⟩]⟩, .val ({}, some e)) := by
  have hk := dummyAt_key hd
  simp [DummyReconciler.run, DummyReconciler.Reconcile, DummyReconciler.GetDummy,
    DummyReconciler.GetDeployment, h, hd, hg, hk, hp, hb, World.record, Res.outcome, IsNotFound,
    buildOutcome, absentTrace]

theorem run_create_fault (r : DummyReconciler) (env : Env) (req : Request) (c : Cluster)
    {d : Dummy} {dep : Deployment} {msg : String}
    (h : r.Client.getDummy = none)
    (hd : c.dummyAt req.NamespacedName = some d) (hg : r.Client.getDeployment = none)
    (hp : c.deploymentAt req.NamespacedName = none)
    (hb : r.deploymentForDummy env d = .val (.ok dep)) (hc : r.Client.create = some msg) :
    r.run env req c =
      (⟨c, absentTrace d ++ [⟨.deploymentForDummy, .ok⟩,
          ⟨.create, .failed (.storeFailure msg)⟩]⟩, .val ({}, some (.storeFailure msg))) := by
  have hk := dummyAt_key hd
  simp [DummyReconciler.run, DummyReconciler.Reconcile, DummyReconciler.GetDummy,
    DummyReconciler.GetDeployment, DummyReconciler.Create, h, hd, hg, hk, hp, hb, hc,
    World.record, Res.outcome, IsNotFound, buildOutcome, absentTrace]

theorem run_created_update_fault (r : DummyReconciler) (env : Env) (req : Request) (c : Cluster)
    {d : Dummy} {dep : Deployment} {msg : String}
    (h : r.Client.getDummy = none)
    (hd : c.dummyAt req.NamespacedName = some d) (hg : r.Client.getDeployment = none)
    (hp : c.deploymentAt req.NamespacedName = none)
    (hb : r.deploymentForDummy env d = .val (.ok dep)) (hc : r.Client.create = none)
    (hu : r.Client.statusUpdate = some msg) :
    r.run env req c =
      (⟨{ c with deployments := c.deployments ++ [dep] },
        absentTrace d ++ [⟨.deploymentForDummy, .ok⟩, ⟨.create, .ok⟩,
          ⟨.statusUpdate, .failed (.storeFailure msg)⟩]⟩,
        .val ({}, some (.storeFailure msg))) := by
  have hk := dummyAt_key hd
  obtain ⟨hn, hns⟩ := deploymentForDummy_key hb
  simp [DummyReconciler.run, DummyReconciler.Reconcile, DummyReconciler.GetDummy,
    DummyReconciler.GetDeployment, DummyReconciler.Create, DummyReconciler.StatusUpdate,
    h, hd, hg, hk, hp, hb, hc, hu, hn, hns,
    World.record, Res.outcome, IsNotFound, buildOutcome, absentTrace]

theorem run_created (r : DummyReconciler) (env : Env) (req : Request) (c : Cluster)
    {d : Dummy} {dep : Deployment}
    (h : r.Client.getDummy = none)
    (hd : c.dummyAt req.NamespacedName = some d) (hg : r.Client.getDeployment = none)
    (hp : c.deploymentAt req.NamespacedName = none)
    (hb : r.deploymentForDummy env d = .val (.ok dep)) (hc : r.Client.create = none)
    (hu : r.Client.statusUpdate = none) :
    r.run env req c =
      (⟨Cluster.writeStatus { c with deployments := c.deployments ++ [dep] }
          { d with Status := createdStatus d },
        absentTrace d ++ [⟨.deploymentForDummy, .ok⟩, ⟨.create, .ok⟩, ⟨.statusUpdate, .ok⟩]⟩,
        .val ({ RequeueAfter := Minute }, none)) := by
  have hk := dummyAt_key hd
  obtain ⟨hn, hns⟩ := deploymentForDummy_key hb
  have hd2 : Cluster.dummyAt { c with deployments := c.deployments ++ [dep] }
      req.NamespacedName = some d := hd
  simp [DummyReconciler.run, DummyReconciler.Reconcile, DummyReconciler.GetDummy,
    DummyReconciler.GetDeployment, DummyReconciler.Create, DummyReconciler.StatusUpdate,
    h, hd, hg, hk, hp, hb, hc, hu, hn, hns, hd2, createdStatus,
    World.record, Res.outcome, IsNotFound, buildOutcome, absentTrace]

theorem run_present_update_fault (r : DummyReconciler) (env : Env) (req : Request) (c : Cluster)
    {d : Dummy} {found : Deployment} {msg : String}
    (h : r.Client.getDummy = none)
    (hd : c.dummyAt req.NamespacedName = some d) (hg : r.Client.getDeployment = none)
    (hp : c.deploymentAt req.NamespacedName = some found)
    (hu : r.Client.statusUpdate = some msg) :
    r.run env req c =
      (⟨c, [⟨.getDummy, .ok⟩, ⟨.getDeployment, .ok⟩,
          ⟨.statusUpdate, .failed (.storeFailure msg)⟩]⟩,
        .val ({}, some (.storeFailure msg))) := by
  have hk := dummyAt_key hd
  simp [DummyReconciler.run, DummyReconciler.Reconcile, DummyReconciler.GetDummy,
    DummyReconciler.GetDeployment, DummyReconciler.StatusUpdate,
    h, hd, hg, hk, hp, hu, World.record, Res.outcome, IsNotFound]

theorem run_present (r : DummyReconciler) (env : Env) (req : Request) (c : Cluster)
    {d : Dummy} {found : Deployment}
    (h : r.Client.getDummy = none)
    (hd : c.dummyAt req.NamespacedName = some d) (hg : r.Client.getDeployment = none)
    (hp : c.deploymentAt req.NamespacedName = some found)
    (hu : r.Client.statusUpdate = none) :
    r.run env req c =
      (⟨c.writeStatus { d with Status := steadyStatus d },
        [⟨.getDummy, .ok⟩, ⟨.getDeployment, .ok⟩, ⟨.statusUpdate, .ok⟩]⟩,
        .val ({}, none)) := by
  have hk := dummyAt_key hd
  by_cases hs : d.Status.PodStatus = ""
  all_goals
    simp [DummyReconciler.run, DummyReconciler.Reconcile, DummyReconciler.GetDummy,
      DummyReconciler.GetDeployment, DummyReconciler.StatusUpdate,
      h, hd, hg, hk, hp, hu, hs, steadyStatus, World.record, Res.outcome, IsNotFound]

/-- The four ways a pass can end, by what it did to the store: nothing; the
Deployment created and the status write lost; the Deployment created and the
status written; the Deployment present and the status written. -/
theorem run_cases (r : DummyReconciler) (env : Env) (req : Request) (c : Cluster) :
    ((r.run env req c).1.cluster = c ∧
      ((c.dummyAt req.NamespacedName = none ∧ (r.run env req c).2 = .val ({}, none)) ∨
        (∃ e, (r.run env req c).2 = .val ({}, some e)) ∨
        (∃ p, (r.run env req c).2 = .panic p))) ∨
    (∃ d dep e, c.dummyAt req.NamespacedName = some d ∧ c.deploymentAt req.NamespacedName = none ∧
      r.deploymentForDummy env d = .val (.ok dep) ∧
      (r.run env req c).1.cluster = { c with deployments := c.deployments ++ [dep] } ∧
      (r.run env req c).2 = .val ({}, some e)) ∨
    (∃ d dep, c.dummyAt req.NamespacedName = some d ∧ c.deploymentAt req.NamespacedName = none ∧
      r.deploymentForDummy env d = .val (.ok dep) ∧
      (r.run env req c).1.cluster =
        Cluster.writeStatus { c with deployments := c.deployments ++ [dep] }
          { d with Status := createdStatus d } ∧
      (r.run env req c).2 = .val ({ RequeueAfter := Minute }, none)) ∨
    (∃ d found, c.dummyAt req.NamespacedName = some d ∧
      c.deploymentAt req.NamespacedName = some found ∧
      (r.run env req c).1.cluster = c.writeStatus { d with Status := steadyStatus d } ∧
      (r.run env req c).2 = .val ({}, none)) := by
  cases h1 : r.Client.getDummy with
  | some msg =>
    rw [run_getDummy_fault r env req c h1]
    simp
  | none =>
    cases hd : c.dummyAt req.NamespacedName with
    | none =>
      rw [run_missing r env req c h1 hd]
      simp
    | some d =>
      cases h2 : r.Client.getDeployment with
      | some msg =>
        rw [run_getDeployment_fault r env req c h1 hd h2]
        simp
      | none =>
        cases hp : c.deploymentAt req.NamespacedName with
        | some found =>
          cases h3 : r.Client.statusUpdate with
          | some msg3 =>
            rw [run_present_update_fault r env req c h1 hd h2 hp h3]
            simp
          | none =>
            rw [run_present r env req c h1 hd h2 hp h3]
            simp
        | none =>
          cases hb : r.deploymentForDummy env d with
          | panic p =>
            rw [run_build_panic r env req c h1 hd h2 hp hb]
            simp
          | val res =>
            cases res with
            | error e0 =>
              rw [run_build_error r env req c h1 hd h2 hp hb]
              simp
            | ok dep =>
              cases h4 : r.Client.create with
              | some msg4 =>
                rw [run_create_fault r env req c h1 hd h2 hp hb h4]
                simp
              | none =>
                cases h3 : r.Client.statusUpdate with
                | some msg3 =>
                  rw [run_created_update_fault r env req c h1 hd h2 hp hb h4 h3]
                  simp [hb]
                | none =>
                  rw [run_created r env req c h1 hd h2 hp hb h4 h3]
                  simp [hb]

/-- A pass that returns without error on a stored record either found the
Deployment and wrote the steady status, or created the Deployment and wrote the
created status. -/
theorem run_success_cases (r : DummyReconciler) (env : Env) (req : Request) (c : Cluster)
    {d : Dummy} {res : Result}
    (hd : c.dummyAt req.NamespacedName = some d)
    (hok : (r.run env req c).2 = .val (res, none)) :
    (∃ found, c.deploymentAt req.NamespacedName = some found ∧ res = {} ∧
      (r.run env req c).1.cluster = c.writeStatus { d with Status := steadyStatus d }) ∨
    (∃ dep, c.deploymentAt req.NamespacedName = none ∧
      r.deploymentForDummy env d = .val (.ok dep) ∧ res = { RequeueAfter := Minute } ∧
      (r.run env req c).1.cluster =
        Cluster.writeStatus { c with deployments := c.deployments ++ [dep] }
          { d with Status := createdStatus d }) := by
  rcases run_cases r env req c with ⟨_, h | ⟨e, h⟩ | ⟨p, h⟩⟩ | ⟨d1, dep, e, _, _, _, _, h⟩ |
      ⟨d1, dep, hd1, hp, hb, hc, h⟩ | ⟨d1, found, hd1, hp, hc, h⟩
  · simp [hd] at h
  · simp [h] at hok
  · simp [h] at hok
  · simp [h] at hok
  · rw [hd] at hd1
    cases hd1
    right
    refine ⟨dep, hp, hb, ?_, hc⟩
    rw [h] at hok
    simp only [Ret.val.injEq, Prod.mk.injEq, and_true] at hok
    exact hok.symm
  · rw [hd] at hd1
    cases hd1
    left
    refine ⟨found, hp, ?_, hc⟩
    rw [h] at hok
    simp only [Ret.val.injEq, Prod.mk.injEq, and_true] at hok
    exact hok.symm

theorem imageForDummy_unset {env : Env} (h : env "DUMMY_IMAGE" = none) :
    imageForDummy env = .error missingImageErr := by
  simp only [imageForDummy, h]
  rfl

theorem deploymentForDummy_unset (r : DummyReconciler) {env : Env} (d : Dummy)
    (h : env "DUMMY_IMAGE" = none) :
    r.deploymentForDummy env d = .val (.error missingImageErr) := by
  simp [DummyReconciler.deploymentForDummy, labelsForDummy, imageForDummy_unset h]

/-! ## Theorems on one pass -/

/-- C7 (missing record): when no Dummy record is stored at the identity of the
request and the fetch reports NotFound, the pass returns the empty result with
no error, leaves the whole store (records, statuses, Deployments) as it was and
performs the fetch only, whatever the environment. -/
theorem reconcile_missing_record (r : DummyReconciler) (env : Env) (req : Request) (c : Cluster)
    (habsent : c.dummyAt req.NamespacedName = none)
    (hfetch : ∃ e, (r.GetDummy req.NamespacedName ⟨c, []⟩).2 = .error e ∧ IsNotFound e = true) :
    (r.run env req c).2 = .val ({}, none) ∧
    (r.run env req c).1.cluster = c ∧
    (∀ ev ∈ (r.run env req c).1.trace, ev.step = .getDummy) := by
  have hf : r.Client.getDummy = none := by
    obtain ⟨e, he, hnf⟩ := hfetch
    cases hc : r.Client.getDummy with
    | none => rfl
    | some msg =>
      simp [DummyReconciler.GetDummy, hc] at he
      subst he
      simp [IsNotFound] at hnf
  rw [run_missing r env req c hf habsent]
  simp

/-- C4 (missing configuration): when the record exists, no Deployment exists at
its identity and `DUMMY_IMAGE` is not set, the pass returns an error with the
empty result, the store is unchanged and no write step is performed; when both
fetches go through, the error is the one `imageForDummy` makes. -/
theorem reconcile_missing_image (r : DummyReconciler) (env : Env) (req : Request) (c : Cluster)
    (d : Dummy) (hd : c.dummyAt req.NamespacedName = some d)
    (hp : c.deploymentAt req.NamespacedName = none) (henv : env "DUMMY_IMAGE" = none) :
    (∃ e, (r.run env req c).2 = .val ({}, some e)) ∧
    (r.run env req c).1.cluster = c ∧
    (∀ ev ∈ (r.run env req c).1.trace, ev.step.isWrite = false) ∧
    (r.Client.getDummy = none → r.Client.getDeployment = none →
      (r.run env req c).2 = .val ({}, some missingImageErr) ∧
      imageForDummy env = .error missingImageErr) := by
  cases h1 : r.Client.getDummy with
  | some msg =>
    rw [run_getDummy_fault r env req c h1]
    simp [Step.isWrite]
  | none =>
    cases h2 : r.Client.getDeployment with
    | some msg =>
      rw [run_getDeployment_fault r env req c h1 hd h2]
      simp [Step.isWrite]
    | none =>
      rw [run_build_error r env req c h1 hd h2 hp (deploymentForDummy_unset r d henv)]
      simp [Step.isWrite, absentTrace, imageForDummy_unset henv]

/-- C8 (default phase): when the record exists with an empty `PodStatus` and a
Deployment exists at the same identity, the pass succeeds exactly when its two
fetches and its status update go through, and a successful pass sets the stored
`PodStatus` to "Pending", leaves the Deployments as they were and returns the
empty result. -/
theorem reconcile_default_phase (r : DummyReconciler) (env : Env) (req : Request) (c : Cluster)
    (d : Dummy) (found : Deployment) (hd : c.dummyAt req.NamespacedName = some d)
    (hempty : d.Status.PodStatus = "")
    (hp : c.deploymentAt req.NamespacedName = some found) :
    ((∃ res, (r.run env req c).2 = .val (res, none)) ↔
      (r.Client.getDummy = none ∧ r.Client.getDeployment = none ∧ r.Client.statusUpdate = none)) ∧
    (∀ res, (r.run env req c).2 = .val (res, none) →
      res = {} ∧
      ((r.run env req c).1.cluster.dummyAt req.NamespacedName).map (·.Status.PodStatus)
        = some "Pending" ∧
      (r.run env req c).1.cluster.deployments = c.deployments ∧
      (∀ ev ∈ (r.run env req c).1.trace, ev.step ≠ .create)) := by
  cases h1 : r.Client.getDummy with
  | some msg =>
    rw [run_getDummy_fault r env req c h1]
    simp
  | none =>
    cases h2 : r.Client.getDeployment with
    | some msg =>
      rw [run_getDeployment_fault r env req c h1 hd h2]
      simp
    | none =>
      cases h3 : r.Client.statusUpdate with
      | some msg =>
        rw [run_present_update_fault r env req c h1 hd h2 hp h3]
        simp
      | none =>
        rw [run_present r env req c h1 hd h2 hp h3]
        have hw := dummyAt_writeStatus_self (steadyStatus d) hd
        simp only [hw]
        simp [steadyStatus, hempty, statusPending, deployments_writeStatus]

/-- The missing-record theorem on the empty store and the request of the test. -/
theorem reconcile_missing_record_witness :
    Cluster.dummyAt {} testReq.NamespacedName = none ∧
    (testReconciler.run emptyEnv testReq {}).2 = .val ({}, none) ∧
    (testReconciler.run emptyEnv testReq {}).1.cluster = {} ∧
    (∀ ev ∈ (testReconciler.run emptyEnv testReq {}).1.trace, ev.step = .getDummy) :=
  ⟨by decide, reconcile_missing_record testReconciler emptyEnv testReq {} (by decide)
    ⟨.notFound "Dummy" "test-dummy" "test-dummy", by decide, by decide⟩⟩

/-- The missing-configuration theorem on the store of the test with an empty environment. -/
theorem reconcile_missing_image_witness :
    emptyEnv "DUMMY_IMAGE" = none ∧
    (testReconciler.run emptyEnv testReq testCluster).2 = .val ({}, some missingImageErr) ∧
    (testReconciler.run emptyEnv testReq testCluster).1.cluster = testCluster :=
  have h := reconcile_missing_image testReconciler emptyEnv testReq testCluster testDummy
    (by decide) (by decide) (by decide)
  ⟨by decide, (h.2.2.2 (by decide) (by decide)).1, h.2.1⟩

/-- The default-phase theorem on the store with the Deployment present and the phase empty. -/
theorem reconcile_default_phase_witness :
    (testReconciler.run testEnv testReq presentCluster).2 = .val ({}, none) ∧
    ((testReconciler.run testEnv testReq presentCluster).1.cluster.dummyAt
        testReq.NamespacedName).map (·.Status.PodStatus) = some "Pending" ∧
    (testReconciler.run testEnv testReq presentCluster).1.cluster.deployments
      = presentCluster.deployments :=
  have h := (reconcile_default_phase testReconciler testEnv testReq presentCluster testDummy
    { ObjectMeta := { Name := "test-dummy", Namespace := "test-dummy" } }
    (by decide) (by decide) (by decide)).2 {} (by decide)
  ⟨by decide, h.2.1, h.2.2.1⟩

/-- C6 (error propagation): a pass returns the error `e` exactly when one of its
steps failed with `e` (a fetch reporting NotFound does not count as failing);
then the result is the empty result, the failing step is the last step of the
pass, so that no store call follows it, and no step before it failed. -/
theorem reconcile_error_propagation (r : DummyReconciler) (env : Env) (req : Request)
    (c : Cluster) :
    (∀ e, (∃ res, (r.run env req c).2 = .val (res, some e)) ↔
      ∃ ev ∈ (r.run env req c).1.trace, ev.failure = some e) ∧
    (∀ e res, (r.run env req c).2 = .val (res, some e) →
      res = {} ∧
      (∃ ev, (r.run env req c).1.trace.getLast? = some ev ∧ ev.failure = some e) ∧
      (∀ ev ∈ (r.run env req c).1.trace.dropLast, ev.failure = none)) := by
  cases h1 : r.Client.getDummy with
  | some msg =>
    rw [run_getDummy_fault r env req c h1]
    simp [Event.failure, IsNotFound]
  | none =>
    cases hd : c.dummyAt req.NamespacedName with
    | none =>
      rw [run_missing r env req c h1 hd]
      simp [Event.failure, IsNotFound]
    | some d =>
      cases h2 : r.Client.getDeployment with
      | some msg =>
        rw [run_getDeployment_fault r env req c h1 hd h2]
        simp [Event.failure, IsNotFound]
      | none =>
        cases h3 : r.Client.statusUpdate with
        | some msg3 =>
          cases hp : c.deploymentAt req.NamespacedName with
          | some found =>
            rw [run_present_update_fault r env req c h1 hd h2 hp h3]
            simp [Event.failure, IsNotFound]
          | none =>
            cases hb : r.deploymentForDummy env d with
            | panic p =>
              rw [run_build_panic r env req c h1 hd h2 hp hb]
              simp [Event.failure, IsNotFound, absentTrace]
            | val res =>
              cases res with
              | error e0 =>
                rw [run_build_error r env req c h1 hd h2 hp hb]
                simp [Event.failure, IsNotFound, absentTrace]
              | ok dep =>
                cases h4 : r.Client.create with
                | some msg4 =>
                  rw [run_create_fault r env req c h1 hd h2 hp hb h4]
                  simp [Event.failure, IsNotFound, absentTrace]
                | none =>
                  rw [run_created_update_fault r env req c h1 hd h2 hp hb h4 h3]
                  simp [Event.failure, IsNotFound, absentTrace]
        | none =>
          cases hp : c.deploymentAt req.NamespacedName with
          | some found =>
            rw [run_present r env req c h1 hd h2 hp h3]
            simp [Event.failure, IsNotFound]
          | none =>
            cases hb : r.deploymentForDummy env d with
            | panic p =>
              rw [run_build_panic r env req c h1 hd h2 hp hb]
              simp [Event.failure, IsNotFound, absentTrace]
            | val res =>
              cases res with
              | error e0 =>
                rw [run_build_error r env req c h1 hd h2 hp hb]
                simp [Event.failure, IsNotFound, absentTrace]
              | ok dep =>
                cases h4 : r.Client.create with
                | some msg4 =>
                  rw [run_create_fault r env req c h1 hd h2 hp hb h4]
                  simp [Event.failure, IsNotFound, absentTrace]
                | none =>
                  rw [run_created r env req c h1 hd h2 hp hb h4 h3]
                  simp [Event.failure, IsNotFound, absentTrace]

/-! ## Creation -/

theorem deploymentAt_append_new {c : Cluster} {key : NamespacedName} {dep : Deployment}
    (x : Dummy) (hp : c.deploymentAt key = none)
    (hk : (⟨dep.ObjectMeta.Name, dep.ObjectMeta.Namespace⟩ : NamespacedName) = key) :
    (Cluster.writeStatus { c with deployments := c.deployments ++ [dep] } x).deploymentAt key
      = some dep := by
  unfold Cluster.deploymentAt at *
  have hkey : dep.hasKey key = true := by
    subst hk
    simp [Deployment.hasKey]
  simp [Cluster.writeStatus, List.find?_append, hp, List.find?, hkey]

/-- The creation property for an image on which the builder returns a
Deployment: with the record stored, no Deployment at its identity and every
store call going through, the pass appends exactly the built Deployment, which
has replica count 1, the controller owner reference to the record and
`RunAsNonRoot` at pod and container level, sets `PodStatus` to "Running" and
asks for a requeue after one minute. -/
theorem reconcile_creates (r : DummyReconciler) (env : Env) (req : Request) (c : Cluster)
    (d : Dummy) (dep : Deployment) (hfaults : r.Client = {})
    (hd : c.dummyAt req.NamespacedName = some d)
    (hp : c.deploymentAt req.NamespacedName = none)
    (hb : r.deploymentForDummy env d = .val (.ok dep)) :
    (r.run env req c).2 = .val ({ RequeueAfter := Minute }, none) ∧
    (r.run env req c).1.cluster.deployments = c.deployments ++ [dep] ∧
    (r.run env req c).1.cluster.deploymentAt req.NamespacedName = some dep ∧
    (r.run env req c).1.cluster.dummyAt req.NamespacedName
      = some { d with Status := { d.Status with PodStatus := "Running" } } ∧
    dep.Spec.Replicas = some 1 ∧
    (∃ gvk, r.Scheme.dummyKind = some gvk ∧
      dep.ObjectMeta.OwnerReferences = [controllerRef gvk d]) ∧
    (dep.Spec.Template.Spec.SecurityContext.bind (·.RunAsNonRoot)) = some true ∧
    (∀ ct ∈ dep.Spec.Template.Spec.Containers,
      ct.SecurityContext.bind (·.RunAsNonRoot) = some true) := by
  have hk := dummyAt_key hd
  obtain ⟨hn, hns⟩ := deploymentForDummy_key hb
  have hdk : (⟨dep.ObjectMeta.Name, dep.ObjectMeta.Namespace⟩ : NamespacedName)
      = req.NamespacedName := by rw [hn, hns]; exact hk
  rw [run_created r env req c (by rw [hfaults]) hd (by rw [hfaults]) hp hb (by rw [hfaults])
    (by rw [hfaults])]
  have hd2 : Cluster.dummyAt { c with deployments := c.deployments ++ [dep] }
      req.NamespacedName = some d := hd
  obtain ⟨image, gvk, ls, _, hgvk, _, hm, hrep, _, _, hsec, hct⟩ := deploymentForDummy_ok hb
  refine ⟨rfl, rfl, deploymentAt_append_new _ hp hdk, ?_, hrep, ⟨gvk, hgvk, ?_⟩, ?_, ?_⟩
  · exact dummyAt_writeStatus_self (createdStatus d) hd2
  · rw [hm]
  · rw [hsec]; rfl
  · rw [hct]
    intro ct hmem
    simp only [List.mem_singleton] at hmem
    subst hmem
    rfl

/-- C1 (creation, at an image without a colon): with the record of the test
stored, no Deployment, `DUMMY_IMAGE` set to "nginx" and every store call going
through, the pass crashes with an index out of range in `labelsForDummy`; no
Deployment is created and the status stays empty. -/
theorem reconcile_untagged_image_panics :
    untaggedEnv "DUMMY_IMAGE" = some "nginx" ∧
    testCluster.dummyAt testReq.NamespacedName = some testDummy ∧
    testCluster.deploymentAt testReq.NamespacedName = none ∧
    testReconciler.Client = {} ∧
    (testReconciler.run untaggedEnv testReq testCluster).2 = .panic (.indexOutOfRange 1 1) ∧
    (testReconciler.run untaggedEnv testReq testCluster).1.cluster.deployments = [] ∧
    ((testReconciler.run untaggedEnv testReq testCluster).1.cluster.dummyAt
      testReq.NamespacedName).map (·.Status.PodStatus) = some "" := by
  decide

/-- C9 (builder totality, at an image without a colon): with `DUMMY_IMAGE` set
to "nginx" the split of the image has one element, indexing it at 1 is out of
range, and `labelsForDummy` and `deploymentForDummy` crash instead of returning
a definition or an error; on the image of the test the same reconciler returns
a definition. -/
theorem deploymentForDummy_untagged_image_panics :
    untaggedEnv "DUMMY_IMAGE" = some "nginx" ∧
    stringsSplit "nginx" ':' = ["nginx"] ∧
    labelsForDummy untaggedEnv "test-dummy" = .panic (.indexOutOfRange 1 1) ∧
    testReconciler.deploymentForDummy untaggedEnv testDummy = .panic (.indexOutOfRange 1 1) ∧
    (∃ dep, testReconciler.deploymentForDummy testEnv testDummy = .val (.ok dep)) := by
  refine ⟨by decide, by decide, by decide, by decide, ?_⟩
  have henv : testEnv "DUMMY_IMAGE" = some "example.com/image:test" := by decide
  exact deploymentForDummy_tagged testReconciler testDummy henv (by decide) rfl

/-! ## Mirroring and conditions -/

/-- C2 (mirroring, as stated, fails on the creating branch): for the record of
the test with the message "hello", an empty status and no Deployment, the pass
returns without error, and the stored `EchoSpec` is still empty while the spec
message is "hello". -/
theorem mirroring_fails_on_creation :
    helloCluster.dummyAt testReq.NamespacedName = some helloDummy ∧
    (testReconciler.run testEnv testReq helloCluster).2 = .val ({ RequeueAfter := Minute }, none) ∧
    ((testReconciler.run testEnv testReq helloCluster).1.cluster.dummyAt
      testReq.NamespacedName).map (·.Status.EchoSpec) = some "" ∧
    ((testReconciler.run testEnv testReq helloCluster).1.cluster.dummyAt
      testReq.NamespacedName).map (·.Spec.Message) = some "hello" ∧
    ((testReconciler.run testEnv testReq helloCluster).1.cluster.dummyAt
      testReq.NamespacedName).map (·.Status.EchoSpec) ≠
    ((testReconciler.run testEnv testReq helloCluster).1.cluster.dummyAt
      testReq.NamespacedName).map (·.Spec.Message) := by
  decide

/-- C2 (mirroring, amended): when the record exists and a pass returns without
error, then on the branch with the Deployment already present the stored
`EchoSpec` equals the spec message afterwards, and on the creating branch the
stored `EchoSpec` is what it was before the pass; the spec message of the
stored record is the same before and after. -/
theorem reconcile_mirroring (r : DummyReconciler) (env : Env) (req : Request) (c : Cluster)
    (d : Dummy) (res : Result) (hd : c.dummyAt req.NamespacedName = some d)
    (hok : (r.run env req c).2 = .val (res, none)) :
    ((r.run env req c).1.cluster.dummyAt req.NamespacedName).map (·.Spec.Message)
      = some d.Spec.Message ∧
    (c.deploymentAt req.NamespacedName ≠ none →
      ((r.run env req c).1.cluster.dummyAt req.NamespacedName).map (·.Status.EchoSpec)
        = some d.Spec.Message) ∧
    (c.deploymentAt req.NamespacedName = none →
      ((r.run env req c).1.cluster.dummyAt req.NamespacedName).map (·.Status.EchoSpec)
        = some d.Status.EchoSpec) := by
  rcases run_success_cases r env req c hd hok with ⟨found, hp, _, hc⟩ | ⟨dep, hp, _, _, hc⟩
  · rw [hc, dummyAt_writeStatus_self (steadyStatus d) hd]
    simp [hp, steadyStatus]
  · have hd2 : Cluster.dummyAt { c with deployments := c.deployments ++ [dep] }
        req.NamespacedName = some d := hd
    rw [hc, dummyAt_writeStatus_self (createdStatus d) hd2]
    simp [hp, createdStatus]

/-- The mirroring theorem on both branches: the Deployment present, and the Deployment created. -/
theorem reconcile_mirroring_witness :
    ((testReconciler.run testEnv testReq presentCluster).1.cluster.dummyAt
      testReq.NamespacedName).map (·.Status.EchoSpec) = some testDummy.Spec.Message ∧
    ((testReconciler.run testEnv testReq helloCluster).1.cluster.dummyAt
      testReq.NamespacedName).map (·.Status.EchoSpec) = some helloDummy.Status.EchoSpec :=
  ⟨(reconcile_mirroring testReconciler testEnv testReq presentCluster testDummy {}
      (by decide) (by decide)).2.1 (by decide),
   (reconcile_mirroring testReconciler testEnv testReq helloCluster helloDummy
      { RequeueAfter := Minute } (by decide) (by decide)).2.2 (by decide)⟩

/-- C10 (status condition, as stated, fails): in the scenario of the test (name
and namespace "test-dummy", size 1, image "example.com/image:test", no
Deployment) the pass succeeds, and the stored status has no condition entry at
all, so none with the reason "Reconciling". -/
theorem no_condition_after_creation :
    (testReconciler.run testEnv testReq testCluster).2 = .val ({ RequeueAfter := Minute }, none) ∧
    ((testReconciler.run testEnv testReq testCluster).1.cluster.dummyAt
      testReq.NamespacedName).map (·.Status.Conditions) = some [] ∧
    ¬ ∃ d cond, (testReconciler.run testEnv testReq testCluster).1.cluster.dummyAt
        testReq.NamespacedName = some d ∧ cond ∈ d.Status.Conditions ∧
        cond.Reason = "Reconciling" := by
  refine ⟨by decide, by decide, ?_⟩
  rintro ⟨d, cond, hd, hmem, _⟩
  have h : ((testReconciler.run testEnv testReq testCluster).1.cluster.dummyAt
      testReq.NamespacedName).map (·.Status.Conditions) = some [] := by decide
  rw [hd] at h
  simp only [Option.map_some', Option.some.injEq] at h
  rw [h] at hmem
  exact absurd hmem (List.not_mem_nil cond)

/-- C10 (status condition, amended): for a stored record with no Deployment, a
pass that returns without error leaves the condition entries of the stored
status exactly as they were before the pass (it adds none) and sets `PodStatus`
to "Running". -/
theorem reconcile_keeps_conditions (r : DummyReconciler) (env : Env) (req : Request)
    (c : Cluster) (d : Dummy) (res : Result) (hd : c.dummyAt req.NamespacedName = some d)
    (hp : c.deploymentAt req.NamespacedName = none)
    (hok : (r.run env req c).2 = .val (res, none)) :
    ∃ d1, (r.run env req c).1.cluster.dummyAt req.NamespacedName = some d1 ∧
      d1.Status.Conditions = d.Status.Conditions ∧ d1.Status.PodStatus = "Running" := by
  rcases run_success_cases r env req c hd hok with ⟨found, hp1, _, _⟩ | ⟨dep, _, _, _, hc⟩
  · rw [hp] at hp1
    cases hp1
  · have hd2 : Cluster.dummyAt { c with deployments := c.deployments ++ [dep] }
        req.NamespacedName = some d := hd
    rw [hc, dummyAt_writeStatus_self (createdStatus d) hd2]
    exact ⟨_, rfl, rfl, rfl⟩

/-- The conditions theorem in the scenario of the test. -/
theorem reconcile_keeps_conditions_witness :
    ∃ d1, (testReconciler.run testEnv testReq testCluster).1.cluster.dummyAt
        testReq.NamespacedName = some d1 ∧
      d1.Status.Conditions = testDummy.Status.Conditions ∧ d1.Status.PodStatus = "Running" :=
  reconcile_keeps_conditions testReconciler testEnv testReq testCluster testDummy
    { RequeueAfter := Minute } (by decide) (by decide) (by decide)

/-! ## Repeated passes -/

theorem writeStatus_writeStatus (c : Cluster) (x y : Dummy) (hn : y.Name = x.Name)
    (hns : y.Namespace = x.Namespace) (hs : y.Status = x.Status) :
    (c.writeStatus x).writeStatus y = c.writeStatus x := by
  simp only [Cluster.writeStatus, hn, hns, hs, List.map_map]
  congr 1
  apply List.map_congr_left
  intro a _
  by_cases ha : a.hasKey ⟨x.Name, x.Namespace⟩ = true
  · simp [ha, Dummy.hasKey] at *
    simp [ha]
  · simp [ha]

theorem steadyStatus_steady (d : Dummy) :
    steadyStatus { d with Status := steadyStatus d } = steadyStatus d := by
  by_cases h : d.Status.PodStatus = ""
  · simp [steadyStatus, h, statusPending]
  · simp [steadyStatus, h]

/-- After a pass that wrote the steady status, a further pass with no failing
store call changes nothing in the store. -/
theorem after_steady (r : DummyReconciler) (env : Env) (req : Request) (c : Cluster)
    {d : Dummy} {found : Deployment} (hfaults : r.Client = {})
    (hd : c.dummyAt req.NamespacedName = some d)
    (hp : c.deploymentAt req.NamespacedName = some found) :
    r.after env req (c.writeStatus { d with Status := steadyStatus d })
      = c.writeStatus { d with Status := steadyStatus d } := by
  have hd1 := dummyAt_writeStatus_self (steadyStatus d) hd
  have hp1 : (c.writeStatus { d with Status := steadyStatus d }).deploymentAt req.NamespacedName
      = some found := hp
  unfold DummyReconciler.after
  rw [run_present r env req _ (by rw [hfaults]) hd1 (by rw [hfaults]) hp1 (by rw [hfaults])]
  exact writeStatus_writeStatus c _ _ rfl rfl (steadyStatus_steady d)

/-- C3 (idempotence, as stated, fails): for the record with the message "hello",
an empty status and no Deployment, with every store call going through, the
second pass creates no Deployment, but the status after the second pass (with
`EchoSpec` "hello") differs from the status after the first pass (with an empty
`EchoSpec`). -/
theorem second_pass_changes_status :
    testReconciler.Client = {} ∧
    (testReconciler.after testEnv testReq
        (testReconciler.after testEnv testReq helloCluster)).deployments
      = (testReconciler.after testEnv testReq helloCluster).deployments ∧
    ((testReconciler.after testEnv testReq helloCluster).dummyAt testReq.NamespacedName).map
      (·.Status) = some { PodStatus := "Running", EchoSpec := "" } ∧
    ((testReconciler.after testEnv testReq
        (testReconciler.after testEnv testReq helloCluster)).dummyAt testReq.NamespacedName).map
      (·.Status) = some { PodStatus := "Running", EchoSpec := "hello" } ∧
    ((testReconciler.after testEnv testReq
        (testReconciler.after testEnv testReq helloCluster)).dummyAt testReq.NamespacedName).map
      (·.Status) ≠
    ((testReconciler.after testEnv testReq helloCluster).dummyAt testReq.NamespacedName).map
      (·.Status) := by
  decide

/-- C3 (idempotence, amended): with every store call going through and a fixed
environment, the second of two passes in succession creates no Deployment; the
status after the second pass has the `PodStatus` and the conditions of the
status after the first pass, and its `EchoSpec` is either unchanged or the spec
message; when the Deployment existed before the first pass the whole store is
the same after both passes; and a third pass changes nothing in the store. -/
theorem reconcile_twice (r : DummyReconciler) (env : Env) (req : Request) (c : Cluster)
    (hfaults : r.Client = {}) :
    (r.after env req (r.after env req c)).deployments = (r.after env req c).deployments ∧
    (∀ d1, (r.after env req c).dummyAt req.NamespacedName = some d1 →
      ∃ d2, (r.after env req (r.after env req c)).dummyAt req.NamespacedName = some d2 ∧
        d2.Status.PodStatus = d1.Status.PodStatus ∧
        d2.Status.Conditions = d1.Status.Conditions ∧
        (d2.Status.EchoSpec = d1.Status.EchoSpec ∨ d2.Status.EchoSpec = d1.Spec.Message)) ∧
    (c.deploymentAt req.NamespacedName ≠ none →
      r.after env req (r.after env req c) = r.after env req c) ∧
    r.after env req (r.after env req (r.after env req c))
      = r.after env req (r.after env req c) := by
  have h1 : r.Client.getDummy = none := by rw [hfaults]
  have h2 : r.Client.getDeployment = none := by rw [hfaults]
  have h3 : r.Client.statusUpdate = none := by rw [hfaults]
  have h4 : r.Client.create = none := by rw [hfaults]
  rcases run_cases r env req c with ⟨hc, _⟩ | ⟨d, dep, e, hd, hp, hb, _, he⟩ |
      ⟨d, dep, hd, hp, hb, hc, _⟩ | ⟨d, found, hd, hp, hc, _⟩
  · -- the first pass wrote nothing
    have ha : r.after env req c = c := hc
    simp only [ha]
    exact ⟨trivial, fun d1 hd1 => ⟨d1, hd1, rfl, rfl, Or.inl rfl⟩, fun _ => trivial, trivial⟩
  · -- a lost status write needs a failing store call
    rw [run_created r env req c h1 hd h2 hp hb h4 h3] at he
    simp at he
  · -- the first pass created the Deployment
    have ha : r.after env req c = Cluster.writeStatus
        { c with deployments := c.deployments ++ [dep] } { d with Status := createdStatus d } := hc
    have hd0 : Cluster.dummyAt { c with deployments := c.deployments ++ [dep] }
        req.NamespacedName = some d := hd
    have hd1 := dummyAt_writeStatus_self (createdStatus d) hd0
    have hk : (⟨dep.ObjectMeta.Name, dep.ObjectMeta.Namespace⟩ : NamespacedName)
        = req.NamespacedName := by
      obtain ⟨hn, hns⟩ := deploymentForDummy_key hb
      rw [hn, hns]
      exact dummyAt_key hd
    have hp1 := deploymentAt_append_new { d with Status := createdStatus d } hp hk
    rw [← ha] at hd1 hp1
    have hb2 : r.after env req (r.after env req c) = (r.after env req c).writeStatus
        { ({ d with Status := createdStatus d } : Dummy) with
          Status := steadyStatus { d with Status := createdStatus d } } := by
      show (r.run env req (r.after env req c)).1.cluster = _
      rw [run_present r env req _ h1 hd1 h2 hp1 h3]
    refine ⟨?_, ?_, ?_, ?_⟩
    · rw [hb2]
      rfl
    · intro d1 hd1a
      rw [hd1] at hd1a
      cases hd1a
      rw [hb2, dummyAt_writeStatus_self _ hd1]
      refine ⟨_, rfl, ?_, rfl, Or.inr rfl⟩
      simp [steadyStatus, createdStatus, statusRunning]
    · intro hne
      exact absurd hp hne
    · rw [hb2]
      exact after_steady r env req _ hfaults hd1 hp1
  · -- the Deployment was there before the first pass
    have ha : r.after env req c = c.writeStatus { d with Status := steadyStatus d } := hc
    have hfix := after_steady r env req c hfaults hd hp
    rw [← ha] at hfix
    simp only [hfix]
    exact ⟨trivial, fun d1 hd1 => ⟨d1, hd1, rfl, rfl, Or.inl rfl⟩, fun _ => trivial, trivial⟩

/-- The two-pass theorem on the store whose record has a message and no Deployment. -/
theorem reconcile_twice_witness :
    testReconciler.Client = {} ∧
    (testReconciler.after testEnv testReq
        (testReconciler.after testEnv testReq helloCluster)).deployments
      = (testReconciler.after testEnv testReq helloCluster).deployments ∧
    testReconciler.after testEnv testReq (testReconciler.after testEnv testReq
        (testReconciler.after testEnv testReq helloCluster))
      = testReconciler.after testEnv testReq (testReconciler.after testEnv testReq helloCluster) :=
  have h := reconcile_twice testReconciler testEnv testReq helloCluster (by decide)
  ⟨by decide, h.1, h.2.2.2⟩

/-! ## The phase over sequences of passes -/

theorem deploymentAt_append {c : Cluster} {key : NamespacedName} {dep : Deployment}
    (hp : c.deploymentAt key = none)
    (hk : (⟨dep.ObjectMeta.Name, dep.ObjectMeta.Namespace⟩ : NamespacedName) = key) :
    Cluster.deploymentAt { c with deployments := c.deployments ++ [dep] } key = some dep := by
  unfold Cluster.deploymentAt at *
  have hkey : dep.hasKey key = true := by
    subst hk
    simp [Deployment.hasKey]
  simp [List.find?_append, hp, List.find?, hkey]

/-- In every reachable state the record is stored, its phase is empty, "Pending"
or "Running", and a phase that is set comes with the Deployment in the store. -/
theorem reachable_phase {req : Request} {c : Cluster} (h : Reachable req c) :
    ∃ d, c.dummyAt req.NamespacedName = some d ∧
      (d.Status.PodStatus = "" ∨ d.Status.PodStatus = "Pending" ∨
        d.Status.PodStatus = "Running") ∧
      (d.Status.PodStatus ≠ "" → c.deploymentAt req.NamespacedName ≠ none) := by
  induction h with
  | init hd hs _ =>
    refine ⟨_, hd, Or.inl (by rw [hs]), fun hne => absurd ?_ hne⟩
    rw [hs]
  | @pass c r env _ ih =>
    obtain ⟨d, hd, hph, hdep⟩ := ih
    rcases run_cases r env req c with ⟨hc, _⟩ | ⟨d1, dep, e, hd1, hp, hb, hc, _⟩ |
        ⟨d1, dep, hd1, hp, hb, hc, _⟩ | ⟨d1, found, hd1, hp, hc, _⟩
    · refine ⟨d, by rw [DummyReconciler.after, hc]; exact hd, hph, ?_⟩
      rw [DummyReconciler.after, hc]
      exact hdep
    · have hk : (⟨dep.ObjectMeta.Name, dep.ObjectMeta.Namespace⟩ : NamespacedName)
          = req.NamespacedName := by
        obtain ⟨hn, hns⟩ := deploymentForDummy_key hb
        rw [hn, hns]
        exact dummyAt_key hd1
      refine ⟨d, by rw [DummyReconciler.after, hc]; exact hd, hph, fun _ => ?_⟩
      rw [DummyReconciler.after, hc, deploymentAt_append hp hk]
      exact Option.some_ne_none dep
    · have hd0 : Cluster.dummyAt { c with deployments := c.deployments ++ [dep] }
          req.NamespacedName = some d1 := hd1
      have hk : (⟨dep.ObjectMeta.Name, dep.ObjectMeta.Namespace⟩ : NamespacedName)
          = req.NamespacedName := by
        obtain ⟨hn, hns⟩ := deploymentForDummy_key hb
        rw [hn, hns]
        exact dummyAt_key hd1
      refine ⟨_, by rw [DummyReconciler.after, hc]; exact dummyAt_writeStatus_self _ hd0,
        Or.inr (Or.inr rfl), fun _ => ?_⟩
      rw [DummyReconciler.after, hc, deploymentAt_append_new _ hp hk]
      exact Option.some_ne_none dep
    · rw [hd] at hd1
      cases hd1
      have hp1 : (r.after env req c).deploymentAt req.NamespacedName ≠ none := by
        rw [DummyReconciler.after, hc]
        show c.deploymentAt req.NamespacedName ≠ none
        rw [hp]
        exact Option.some_ne_none found
      refine ⟨_, by rw [DummyReconciler.after, hc]; exact dummyAt_writeStatus_self _ hd, ?_,
        fun _ => hp1⟩
      by_cases he : d.Status.PodStatus = ""
      · exact Or.inr (Or.inl (by simp [steadyStatus, he, statusPending]))
      · rcases hph with h0 | h0 | h0
        · exact absurd h0 he
        · exact Or.inr (Or.inl (by simp [steadyStatus, h0]))
        · exact Or.inr (Or.inr (by simp [steadyStatus, h0]))

/-- In a reachable state every pass, whatever it returns, keeps the record in
the store and keeps a phase that is set. -/
theorem reachable_phase_kept {req : Request} {c : Cluster} (h : Reachable req c)
    (r : DummyReconciler) (env : Env) {d : Dummy}
    (hd : c.dummyAt req.NamespacedName = some d) :
    ∃ d1, (r.after env req c).dummyAt req.NamespacedName = some d1 ∧
      (d.Status.PodStatus ≠ "" → d1.Status.PodStatus = d.Status.PodStatus) := by
  obtain ⟨d0, hd0, _, hdep⟩ := reachable_phase h
  rw [hd] at hd0
  cases hd0
  rcases run_cases r env req c with ⟨hc, _⟩ | ⟨d1, dep, e, _, _, _, hc, _⟩ |
      ⟨d1, dep, hd1, hp, _, hc, _⟩ | ⟨d1, found, hd1, _, hc, _⟩
  · exact ⟨d, by rw [DummyReconciler.after, hc]; exact hd, fun _ => rfl⟩
  · exact ⟨d, by rw [DummyReconciler.after, hc]; exact hd, fun _ => rfl⟩
  · have hd3 : Cluster.dummyAt { c with deployments := c.deployments ++ [dep] }
        req.NamespacedName = some d1 := hd1
    exact ⟨_, by rw [DummyReconciler.after, hc]; exact dummyAt_writeStatus_self _ hd3,
      fun hne => absurd hp (hdep hne)⟩
  · rw [hd] at hd1
    cases hd1
    refine ⟨_, by rw [DummyReconciler.after, hc]; exact dummyAt_writeStatus_self _ hd, ?_⟩
    intro hne
    simp [steadyStatus, hne]

/-- C5 (phase invariant, as stated, fails): starting from the record of the test
with an empty status and no Deployment, a first pass creates the Deployment and
its status update fails; the next pass, all of whose store calls go through,
returns without error while the Deployment exists, and the stored `PodStatus`
is then "Pending", not "Running". -/
theorem lost_write_gives_pending :
    Reachable testReq (lostWriteReconciler.after testEnv testReq testCluster) ∧
    (lostWriteReconciler.run testEnv testReq testCluster).2
      = .val ({}, some (.storeFailure "conflict")) ∧
    ((lostWriteReconciler.after testEnv testReq testCluster).deploymentAt
      testReq.NamespacedName).isSome = true ∧
    (testReconciler.run testEnv testReq
      (lostWriteReconciler.after testEnv testReq testCluster)).2 = .val ({}, none) ∧
    ((testReconciler.after testEnv testReq
      (lostWriteReconciler.after testEnv testReq testCluster)).deploymentAt
        testReq.NamespacedName).isSome = true ∧
    ((testReconciler.after testEnv testReq
      (lostWriteReconciler.after testEnv testReq testCluster)).dummyAt
        testReq.NamespacedName).map (·.Status.PodStatus) = some "Pending" ∧
    ((testReconciler.after testEnv testReq
      (lostWriteReconciler.after testEnv testReq testCluster)).dummyAt
        testReq.NamespacedName).map (·.Status.PodStatus) ≠ some "Running" := by
  refine ⟨?_, by decide, by decide, by decide, by decide, by decide, by decide⟩
  exact Reachable.pass _ _ (Reachable.init (d := testDummy) (by decide) (by decide) (by decide))

/-- C5 (phase invariant, amended): in every state reachable from an initial
state by passes in which any store call may fail, every pass, whatever it
returns, keeps a phase that is set ("Running" stays "Running", "Pending" stays
"Pending"); after each pass that returns without error the Deployment exists
and the stored `PodStatus` is "Running" or "Pending", and it is "Running"
exactly when that pass created the Deployment or the phase was "Running"
before; when the Deployment was there and the phase was still empty, as after a
lost status write, the pass sets "Pending". -/
theorem reachable_phase_after_pass (req : Request) (c : Cluster) (hreach : Reachable req c)
    (r : DummyReconciler) (env : Env) :
    ∃ d d1, c.dummyAt req.NamespacedName = some d ∧
      (r.after env req c).dummyAt req.NamespacedName = some d1 ∧
      (d.Status.PodStatus = "Running" → d1.Status.PodStatus = "Running") ∧
      (d.Status.PodStatus ≠ "" → d1.Status.PodStatus = d.Status.PodStatus) ∧
      (∀ res, (r.run env req c).2 = .val (res, none) →
        (r.after env req c).deploymentAt req.NamespacedName ≠ none ∧
        (d1.Status.PodStatus = "Running" ∨ d1.Status.PodStatus = "Pending") ∧
        (d1.Status.PodStatus = "Running" ↔
          (c.deploymentAt req.NamespacedName = none ∨ d.Status.PodStatus = "Running")) ∧
        (c.deploymentAt req.NamespacedName = none → d1.Status.PodStatus = "Running") ∧
        (c.deploymentAt req.NamespacedName ≠ none → d.Status.PodStatus = "" →
          d1.Status.PodStatus = "Pending")) := by
  obtain ⟨d, hd, hph, hdepinv⟩ := reachable_phase hreach
  obtain ⟨d1, hd1, hkept⟩ := reachable_phase_kept hreach r env hd
  refine ⟨d, d1, hd, hd1, ?_, hkept, ?_⟩
  · intro hrun
    rw [hkept (by rw [hrun]; decide), hrun]
  intro res hok
  rcases run_success_cases r env req c hd hok with ⟨found, hp, _, hc⟩ | ⟨dep, hp, hb, _, hc⟩
  · have hafter : (r.after env req c).dummyAt req.NamespacedName
        = some { d with Status := steadyStatus d } := by
      rw [DummyReconciler.after, hc]
      exact dummyAt_writeStatus_self _ hd
    rw [hd1] at hafter
    cases hafter
    have hpne : c.deploymentAt req.NamespacedName ≠ none := by
      rw [hp]
      exact Option.some_ne_none found
    refine ⟨?_, ?_, ?_, ?_, ?_⟩
    · rw [DummyReconciler.after, hc]
      exact hpne
    · by_cases he : d.Status.PodStatus = ""
      · exact Or.inr (by simp [steadyStatus, he, statusPending])
      · rcases hph with h0 | h0 | h0
        · exact absurd h0 he
        · exact Or.inr (by simp [steadyStatus, h0])
        · exact Or.inl (by simp [steadyStatus, h0])
    · constructor
      · intro hrun
        right
        by_cases he : d.Status.PodStatus = ""
        · simp [steadyStatus, he, statusPending] at hrun
        · simpa [steadyStatus, he] using hrun
      · rintro (hnone | hrun)
        · exact absurd hnone hpne
        · simp [steadyStatus, hrun]
    · intro hnone
      exact absurd hnone hpne
    · intro _ he
      simp [steadyStatus, he, statusPending]
  · have hd0 : Cluster.dummyAt { c with deployments := c.deployments ++ [dep] }
        req.NamespacedName = some d := hd
    have hk : (⟨dep.ObjectMeta.Name, dep.ObjectMeta.Namespace⟩ : NamespacedName)
        = req.NamespacedName := by
      obtain ⟨hn, hns⟩ := deploymentForDummy_key hb
      rw [hn, hns]
      exact dummyAt_key hd
    have hafter : (r.after env req c).dummyAt req.NamespacedName
        = some { d with Status := createdStatus d } := by
      rw [DummyReconciler.after, hc]
      exact dummyAt_writeStatus_self _ hd0
    rw [hd1] at hafter
    cases hafter
    refine ⟨?_, Or.inl rfl, ⟨fun _ => Or.inl hp, fun _ => rfl⟩, fun _ => rfl, ?_⟩
    · rw [DummyReconciler.after, hc, deploymentAt_append_new _ hp hk]
      exact Option.some_ne_none dep
    · intro hne
      exact absurd hp hne

/-- The phase theorem on the state reached by a pass whose status update failed,
and on the state after a pass that created the Deployment and wrote "Running". -/
theorem reachable_phase_after_pass_witness :
    (∃ d d1, (lostWriteReconciler.after testEnv testReq testCluster).dummyAt
        testReq.NamespacedName = some d ∧
      (testReconciler.after testEnv testReq
        (lostWriteReconciler.after testEnv testReq testCluster)).dummyAt
          testReq.NamespacedName = some d1 ∧
      d.Status.PodStatus = "" ∧ d1.Status.PodStatus = "Pending") ∧
    (∃ d d1, (testReconciler.after testEnv testReq testCluster).dummyAt
        testReq.NamespacedName = some d ∧
      (testReconciler.after testEnv testReq
        (testReconciler.after testEnv testReq testCluster)).dummyAt
          testReq.NamespacedName = some d1 ∧
      d.Status.PodStatus = "Running" ∧ d1.Status.PodStatus = "Running") := by
  constructor
  · obtain ⟨d, d1, hd, hd1, _, _, hsucc⟩ :=
      reachable_phase_after_pass testReq (lostWriteReconciler.after testEnv testReq testCluster)
        (Reachable.pass _ _ (Reachable.init (d := testDummy) (by decide) (by decide) (by decide)))
        testReconciler testEnv
    have hbefore : (lostWriteReconciler.after testEnv testReq testCluster).dummyAt
        testReq.NamespacedName = some testDummy := by decide
    rw [hbefore] at hd
    cases hd
    exact ⟨_, d1, hbefore, hd1, rfl, (hsucc {} (by decide)).2.2.2.2 (by decide) rfl⟩
  · obtain ⟨d, d1, hd, hd1, hrun, _, _⟩ :=
      reachable_phase_after_pass testReq (testReconciler.after testEnv testReq testCluster)
        (Reachable.pass _ _ (Reachable.init (d := testDummy) (by decide) (by decide) (by decide)))
        testReconciler testEnv
    have hbefore : ((testReconciler.after testEnv testReq testCluster).dummyAt
        testReq.NamespacedName).map (·.Status.PodStatus) = some "Running" := by decide
    rw [hd] at hbefore
    simp only [Option.map_some', Option.some.injEq] at hbefore
    exact ⟨d, d1, hd, hd1, hbefore, hrun hbefore⟩

end DummyOperator
